import Mathlib

/-!
Shallow embedding of the OAuth core of the `tide` repository
(`src/auth/oauth.py`, `src/auth/server.py`, `src/services/user_service.py`,
`src/ui/auth_components.py`), and proofs of the specification claims about it.

Python strings are modelled as Lean `String`; Python dicts are modelled as
insertion-ordered association lists (`Dict`), matching CPython's guaranteed
iteration order, which the callback handler's session lookup depends on.
-/

/-- Python truthiness of an optional string: `None` and `""` are falsy. -/
def pyTruthy : Option String → Bool
  | none => false
  | some s => !(s == "")

/-- Python `a or b` on optional strings: the first truthy operand, else `b`. -/
def pyOr (a b : Option String) : Option String :=
  if pyTruthy a then a else b

/-- Insertion-ordered dictionary keyed by strings (Python `dict`). -/
abbrev Dict (α : Type) := List (String × α)

/-- `d[k]` lookup: first entry with key `k`. -/
def dictLookup {α : Type} : Dict α → String → Option α
  | [], _ => none
  | (k', v) :: rest, k => if k' = k then some v else dictLookup rest k

/-- `d[k] = v`: replace the value in place if `k` is present, else append. -/
def dictInsert {α : Type} : Dict α → String → α → Dict α
  | [], k, v => [(k, v)]
  | (k', v') :: rest, k, v =>
    if k' = k then (k', v) :: rest else (k', v') :: dictInsert rest k v

/-- `del d[k]`: remove the entry with key `k` (the first occurrence). -/
def dictErase {α : Type} : Dict α → String → Dict α
  | [], _ => []
  | (k', v') :: rest, k => if k' = k then rest else (k', v') :: dictErase rest k

/-- The keys of a dict, in order. -/
def dictKeys {α : Type} (d : Dict α) : List String := d.map Prod.fst

/-! ## `src/auth/oauth.py` — GoogleOAuthService -/

/-- `GoogleOAuthService.GOOGLE_AUTH_URL`. -/
def GOOGLE_AUTH_URL : String := "https://accounts.google.com/o/oauth2/v2/auth"

/-- `GoogleOAuthService.SCOPES` — minimal scopes for user identification. -/
def SCOPES : List String := ["openid", "profile", "email"]

/-- `GoogleOAuthService.__init__`: raises `ValueError` when the configured
`GOOGLE_CLIENT_ID` (an environment value, `None` or a string) is falsy. -/
def GoogleOAuthService.init (google_client_id : Option String) : Except String Unit :=
  if pyTruthy google_client_id then Except.ok ()
  else Except.error "Google OAuth client ID not configured"

/-- One byte of `urllib.parse.quote_plus`: alphanumerics and `_.-~` pass
through, space becomes `+`, everything else is percent-encoded. -/
def quotePlusByte (b : UInt8) : String :=
  let c := Char.ofNat b.toNat
  if c.isAlphanum || c = '_' || c = '.' || c = '-' || c = '~' then String.singleton c
  else if c = ' ' then "+"
  else
    let hex := "0123456789ABCDEF".toList
    "%" ++ String.singleton (hex.getD (b.toNat / 16) '0')
        ++ String.singleton (hex.getD (b.toNat % 16) '0')

/-- `urllib.parse.quote_plus` over the UTF-8 encoding of the string. -/
def quote_plus (s : String) : String :=
  (s.toUTF8.toList.map quotePlusByte).foldl (· ++ ·) ""

/-- `urllib.parse.urlencode` on an ordered parameter list. -/
def urlencode (params : List (String × String)) : String :=
  String.intercalate "&" (params.map fun p => quote_plus p.1 ++ "=" ++ quote_plus p.2)

/-- `GoogleOAuthService.generate_auth_url`. The freshly generated
`secrets.token_urlsafe(32)` state and the configured client id / redirect
URI are inputs of the embedding. Returns `(auth_url, state)`. -/
def generate_auth_url (google_client_id google_redirect_uri state : String) :
    String × String :=
  let params : List (String × String) :=
    [("client_id", google_client_id),
     ("redirect_uri", google_redirect_uri),
     ("scope", String.intercalate " " SCOPES),
     ("response_type", "code"),
     ("state", state),
     ("access_type", "offline"),
     ("prompt", "consent")]
  (GOOGLE_AUTH_URL ++ "?" ++ urlencode params, state)

/-- `GoogleOAuthService.validate_state`: `secrets.compare_digest` on the two
strings — semantically, equality (computed in constant time); pure, no side
effects. -/
def validate_state (received_state expected_state : String) : Bool :=
  received_state == expected_state

/-! ## `src/auth/server.py` — AuthServer state and routes -/

/-- One entry of `AuthServer.auth_sessions` (the dict literal built in
`create_auth_session`). -/
structure AuthSession where
  session_id : String
  auth_url : String
  state : String
  timestamp : Nat
deriving DecidableEq, Repr

/-- The `user_info` dict assembled in `google_callback` from the database
user and the `is_new_user` flag. -/
structure UserInfo where
  user_id : String
  email : String
  name : String
  picture : String
  provider : String
  is_new_user : Bool
  last_active : Option String
deriving DecidableEq, Repr

/-- One entry of `AuthServer.auth_results` (only the success payload is ever
stored by the source). -/
structure AuthResult where
  success : Bool
  user_info : UserInfo
  timestamp : Nat
deriving DecidableEq, Repr

/-- The mutable state of `AuthServer`: the pending-session table and the
completed-result table. -/
structure AuthServerState where
  auth_sessions : Dict AuthSession
  auth_results : Dict AuthResult
deriving DecidableEq, Repr

/-- `AuthServer.create_auth_session`: insert a fresh session under a fresh
`uuid4` id (the id and timestamp are inputs of the embedding) and return the
id. -/
def create_auth_session (srv : AuthServerState) (session_id auth_url state : String)
    (ts : Nat) : AuthServerState × String :=
  ({ srv with
      auth_sessions :=
        dictInsert srv.auth_sessions session_id
          { session_id := session_id, auth_url := auth_url, state := state,
            timestamp := ts } },
   session_id)

/-- The session-lookup loop of `google_callback` (lines 106–114): the first
session in insertion order whose stored `state` equals the received one. -/
def find_session_by_state : Dict AuthSession → String → Option AuthSession
  | [], _ => none
  | (_, s) :: rest, state =>
    if s.state == state then some s else find_session_by_state rest state

/-- Body of the `/auth/status/{session_id}` response. -/
inductive StatusResponse where
  /-- The stored result dict is returned (and deleted from the table). -/
  | result (r : AuthResult)
  /-- Returned as the JSON dict with success false and status pending. -/
  | pending
  /-- Returned as the JSON dict with success false and status not_found. -/
  | notFound
deriving DecidableEq, Repr

/-- The `auth_status` route (`take_result` in the spec): return and delete a
completed result; else `pending` if a session is still active; else
`not_found`. -/
def auth_status (srv : AuthServerState) (session_id : String) :
    StatusResponse × AuthServerState :=
  match dictLookup srv.auth_results session_id with
  | some r =>
    (StatusResponse.result r,
     { srv with auth_results := dictErase srv.auth_results session_id })
  | none =>
    if (dictLookup srv.auth_sessions session_id).isSome then
      (StatusResponse.pending, srv)
    else
      (StatusResponse.notFound, srv)

/-- Lines 193–205 of `google_callback` (the spec's `complete_session`): store
the result under the session id, then delete the pending session if present. -/
def complete_session (srv : AuthServerState) (session_id : String) (r : AuthResult) :
    AuthServerState :=
  let srv1 := { srv with auth_results := dictInsert srv.auth_results session_id r }
  if (dictLookup srv1.auth_sessions session_id).isSome then
    { srv1 with auth_sessions := dictErase srv1.auth_sessions session_id }
  else
    srv1

/-- Fields of the database `User` entity read by `google_callback`. -/
structure UserRecord where
  user_id : String
  email_address : String
  display_name : String
  profile_image_url : String
  provider_value : String
  last_active_date : Option String
deriving DecidableEq, Repr

/-- The `user_info` dict built at lines 160–172 of `server.py`. -/
def mkUserInfo (u : UserRecord) (is_new_user : Bool) : UserInfo :=
  { user_id := u.user_id, email := u.email_address, name := u.display_name,
    picture := u.profile_image_url, provider := u.provider_value,
    is_new_user := is_new_user, last_active := u.last_active_date }

/-- Outcome of `_exchange_code_for_tokens` (network I/O, an oracle input of
the embedding). -/
inductive ExchangeOutcome where
  /-- Both provider calls returned 2xx and an access token was present. -/
  | ok
  /-- `raise_for_status` raised on a non-2xx token or userinfo response;
  `str(e)` of the raised `httpx.HTTPStatusError`. -/
  | httpStatusError (msg : String)
  /-- 2xx token response without an `access_token` field:
  `ValueError("No access token received")`. -/
  | noAccessToken
deriving DecidableEq, Repr

/-- Outcome of `UserService.get_or_create_user_from_oauth` as observed by the
callback (database I/O, an oracle input of the embedding). -/
inductive ProvisionOutcome where
  | ok (user : UserRecord) (is_new_user : Bool)
  /-- A `ValueError` with the given message. -/
  | valueError (msg : String)
  /-- Any other exception. -/
  | otherError (msg : String)
deriving DecidableEq, Repr

/-- The HTML page returned by the callback. -/
inductive Page where
  | success (user_name : String)
  | error (message : String)
deriving DecidableEq, Repr

/-- An `HTMLResponse` of the callback route: status code plus page. -/
structure CallbackResponse where
  status_code : Nat
  page : Page
deriving DecidableEq, Repr

/-- The `/auth/google/callback` route. `code`, `state` and `error` are the
query parameters (`None` when absent); `exch` and `prov` are the oracle
outcomes of the two I/O steps; `ts` is the event-loop clock reading. -/
def google_callback (srv : AuthServerState) (code state error : Option String)
    (exch : ExchangeOutcome) (prov : ProvisionOutcome) (ts : Nat) :
    CallbackResponse × AuthServerState :=
  if pyTruthy error then
    (⟨400, Page.error ("OAuth error: " ++ error.getD "")⟩, srv)
  else if !(pyTruthy code) || !(pyTruthy state) then
    (⟨400, Page.error "Missing authorization code or state"⟩, srv)
  else
    let st := state.getD ""
    match find_session_by_state srv.auth_sessions st with
    | none =>
      (⟨400, Page.error "Invalid or expired authentication session"⟩, srv)
    | some session_data =>
      if !(validate_state st session_data.state) then
        -- `CSRFError` raised at line 132, caught at line 211.
        (⟨403, Page.error "Security error: Invalid state parameter"⟩, srv)
      else
        match exch with
        | ExchangeOutcome.httpStatusError msg =>
          -- caught by the generic handler at line 216: no result is stored,
          -- the pending session is left in place.
          (⟨500, Page.error ("Authentication failed: " ++ msg)⟩, srv)
        | ExchangeOutcome.noAccessToken =>
          (⟨500, Page.error "Authentication failed: No access token received"⟩, srv)
        | ExchangeOutcome.ok =>
          match prov with
          | ProvisionOutcome.valueError msg =>
            (⟨500, Page.error ("User profile error: " ++ msg)⟩, srv)
          | ProvisionOutcome.otherError _ =>
            (⟨500, Page.error "An unexpected error occurred during authentication"⟩, srv)
          | ProvisionOutcome.ok user is_new_user =>
            let user_info := mkUserInfo user is_new_user
            let sid := session_data.session_id
            (⟨200, Page.success user_info.name⟩,
             complete_session srv sid
               { success := true, user_info := user_info, timestamp := ts })

/-! ## `src/ui/auth_components.py` — the status poller -/

/-- What the polling thread observes at a given attempt: the shared
`current_session_id` flag and the HTTP response of the status endpoint. -/
inductive PollEvent where
  /-- `self.current_session_id` was observed falsy (sign-in reset). -/
  | cleared
  /-- HTTP 200 whose body has a truthy `success` field. -/
  | okSuccess (user_info : UserInfo)
  /-- HTTP 200 whose body has status not_found. -/
  | okNotFound
  /-- HTTP 200 whose body is still pending. -/
  | okPending
  /-- A non-200 HTTP status: logged, polling continues. -/
  | badStatus (code : Nat)
  /-- An exception during the attempt: logged, polling continues. -/
  | exnDuringPoll (msg : String)
deriving DecidableEq, Repr

/-- How `poll_auth_status` exits. -/
inductive PollExit where
  /-- Loop left because the session id was cleared; no callback fires. -/
  | reset
  /-- `_handle_auth_success(user_info)` fired. -/
  | success (user_info : UserInfo)
  /-- `_handle_error` fired with the session-expired message. -/
  | expired
  /-- The attempt cap was exhausted; `_handle_error` fired with the
  timed-out message. -/
  | timeout
deriving DecidableEq, Repr

/-- `max_attempts = 60` in `_start_auth_polling` (5 minutes at 5-second
intervals). -/
def max_attempts : Nat := 60

/-- The `time.sleep(5)` interval of the poll loop, in seconds. -/
def poll_interval_seconds : Nat := 5

/-- The `while` loop of `poll_auth_status`: `attempt` attempts done so far,
`remaining` attempts allowed; `events n` is what the n-th attempt observes.
Returns the final attempt count and the exit. -/
def poll_loop (events : Nat → PollEvent) (attempt remaining : Nat) :
    Nat × PollExit :=
  match remaining with
  | 0 => (attempt, PollExit.timeout)
  | r + 1 =>
    match events (attempt + 1) with
    | PollEvent.cleared => (attempt, PollExit.reset)
    | PollEvent.okSuccess u => (attempt + 1, PollExit.success u)
    | PollEvent.okNotFound => (attempt + 1, PollExit.expired)
    | PollEvent.okPending => poll_loop events (attempt + 1) r
    | PollEvent.badStatus _ => poll_loop events (attempt + 1) r
    | PollEvent.exnDuringPoll _ => poll_loop events (attempt + 1) r

/-- `poll_auth_status` as started by `_start_auth_polling`. -/
def poll_auth_status (events : Nat → PollEvent) : Nat × PollExit :=
  poll_loop events 0 max_attempts

/-- An event neither terminates the loop nor clears the session. -/
def nonTerminalEvent : PollEvent → Bool
  | PollEvent.okPending => true
  | PollEvent.badStatus _ => true
  | PollEvent.exnDuringPoll _ => true
  | _ => false

/-- The exit produced by a terminal event. -/
def eventExit : PollEvent → Option PollExit
  | PollEvent.cleared => some PollExit.reset
  | PollEvent.okSuccess u => some (PollExit.success u)
  | PollEvent.okNotFound => some PollExit.expired
  | _ => none

/-! ## `src/services/user_service.py` — get_or_create_user_from_oauth -/

/-- The fields of the OAuth profile dict read by the user service. -/
structure OAuthData where
  email : Option String
  id : Option String
  sub : Option String
deriving DecidableEq, Repr

/-- A repository call performed by the user service, in order. -/
inductive RepoOp where
  | find_by_external_user_id (external_user_id provider : String)
  | update_last_active (user_id : String)
  | find_by_email (email : String)
  | create_from_oauth_profile
deriving DecidableEq, Repr

/-- Oracle for the `UserRepository` collaborator: what each call would
return. Creation may raise `IntegrityError` (the error case). -/
structure UserRepo where
  find_by_external_user_id : String → String → Option UserRecord
  find_by_email : String → Option UserRecord
  create_from_oauth_profile : Except String UserRecord

/-- `UserService.get_or_create_user_from_oauth`. Returns the Python outcome
(`ValueError` messages in the error case) together with the ordered trace of
repository calls performed. -/
def get_or_create_user_from_oauth (repo : UserRepo) (oauth_data : OAuthData)
    (provider : String) : Except String (UserRecord × Bool) × List RepoOp :=
  if !(pyTruthy oauth_data.email) then
    (Except.error "OAuth data must include email address", [])
  else
    let external_user_id := pyOr oauth_data.id oauth_data.sub
    if !(pyTruthy external_user_id) then
      (Except.error "OAuth data must include user ID", [])
    else
      let email := oauth_data.email.getD ""
      let ext := external_user_id.getD ""
      match repo.find_by_external_user_id ext provider with
      | some existing_user =>
        (Except.ok (existing_user, false),
         [RepoOp.find_by_external_user_id ext provider,
          RepoOp.update_last_active existing_user.user_id])
      | none =>
        match repo.find_by_email email with
        | some existing_email_user =>
          (Except.error ("Email " ++ email ++ " is already registered with "
            ++ existing_email_user.provider_value),
           [RepoOp.find_by_external_user_id ext provider,
            RepoOp.find_by_email email])
        | none =>
          match repo.create_from_oauth_profile with
          | Except.ok new_user =>
            (Except.ok (new_user, true),
             [RepoOp.find_by_external_user_id ext provider,
              RepoOp.find_by_email email, RepoOp.create_from_oauth_profile])
          | Except.error e =>
            (Except.error ("Failed to create user: " ++ e),
             [RepoOp.find_by_external_user_id ext provider,
              RepoOp.find_by_email email, RepoOp.create_from_oauth_profile])

/-! ## Store well-formedness -/

/-- Every stored session records its own table key as `session_id` — the
invariant established by `create_auth_session`. -/
def sessionsWF (d : Dict AuthSession) : Bool :=
  d.all (fun p => p.2.session_id == p.1)

/-! ## Concrete instances used by witnesses and counterexamples -/

/-- A concrete pending session. -/
def cexSession : AuthSession :=
  { session_id := "sid-1", auth_url := "http://auth", state := "state-1", timestamp := 0 }

/-- A server holding exactly `cexSession` and no results. -/
def cexServer : AuthServerState :=
  { auth_sessions := [("sid-1", cexSession)], auth_results := [] }

/-- A concrete database user. -/
def wUser : UserRecord :=
  { user_id := "u-1", email_address := "alice@example.com", display_name := "Alice",
    profile_image_url := "http://pic", provider_value := "google",
    last_active_date := none }

/-- A concrete user-info payload. -/
def wUserInfo : UserInfo := mkUserInfo wUser true

/-- A concrete completed result. -/
def wResult : AuthResult := { success := true, user_info := wUserInfo, timestamp := 7 }

/-- A poll-event trace that succeeds on the second attempt. -/
def wEvents : Nat → PollEvent :=
  fun n => if n = 2 then PollEvent.okSuccess wUserInfo else PollEvent.okPending

/-- A repository oracle that finds nothing and fails creation. -/
def wRepo : UserRepo :=
  { find_by_external_user_id := fun _ _ => none,
    find_by_email := fun _ => none,
    create_from_oauth_profile := Except.error "dup" }

/-! ## Dictionary lemmas -/

theorem dictLookup_insert_self {α : Type} (d : Dict α) (k : String) (v : α) :
    dictLookup (dictInsert d k v) k = some v := by
  induction d with
  | nil => simp [dictInsert, dictLookup]
  | cons p rest ih =>
    obtain ⟨k', v'⟩ := p
    by_cases h : k' = k
    · simp [dictInsert, dictLookup, h]
    · simp [dictInsert, dictLookup, h, ih]

theorem dictKeys_insert_nodup {α : Type} (d : Dict α) (k : String) (v : α)
    (h : (dictKeys d).Nodup) : (dictKeys (dictInsert d k v)).Nodup := by
  induction d with
  | nil => simp [dictInsert, dictKeys]
  | cons p rest ih =>
    obtain ⟨k', v'⟩ := p
    simp only [dictKeys, List.map_cons, List.nodup_cons] at h
    by_cases hk : k' = k
    · simp only [dictInsert, if_pos hk, dictKeys, List.map_cons, List.nodup_cons]
      exact ⟨h.1, h.2⟩
    · simp only [dictInsert, if_neg hk, dictKeys, List.map_cons, List.nodup_cons]
      constructor
      · intro hmem
        rcases (by simpa [dictKeys] using hmem : k' ∈ dictKeys (dictInsert rest k v)) with hm
        -- membership in keys of an insert: either an old key or `k`
        have : k' ∈ dictKeys rest ∨ k' = k := by
          clear h ih hmem
          induction rest with
          | nil => simpa [dictInsert, dictKeys] using hm
          | cons q qs ihq =>
            obtain ⟨kq, vq⟩ := q
            by_cases hq : kq = k
            · exact Or.inl (by simpa [dictInsert, hq, dictKeys] using hm)
            · simp only [dictInsert, if_neg hq, dictKeys, List.map_cons,
                List.mem_cons] at hm ⊢
              rcases hm with hm | hm
              · exact Or.inl (Or.inl hm)
              · rcases ihq hm with h1 | h1
                · exact Or.inl (Or.inr h1)
                · exact Or.inr h1
        rcases this with h1 | h1
        · exact h.1 (by simpa [dictKeys] using h1)
        · exact hk h1
      · exact ih h.2

theorem dictLookup_erase_self {α : Type} (d : Dict α) (k : String)
    (h : (dictKeys d).Nodup) : dictLookup (dictErase d k) k = none := by
  induction d with
  | nil => simp [dictErase, dictLookup]
  | cons p rest ih =>
    obtain ⟨k', v'⟩ := p
    simp only [dictKeys, List.map_cons, List.nodup_cons] at h
    by_cases hk : k' = k
    · simp only [dictErase, if_pos hk]
      subst hk
      -- `k'` is not among the remaining keys, so lookup misses
      clear ih
      induction rest with
      | nil => simp [dictLookup]
      | cons q qs ihq =>
        obtain ⟨kq, vq⟩ := q
        simp only [dictKeys, List.map_cons, List.mem_cons, not_or] at h
        have hne : kq ≠ k' := fun hcontra => h.1.1 hcontra.symm
        simp only [dictLookup, if_neg hne]
        exact ihq ⟨fun hm => h.1.2 hm, (List.nodup_cons.mp h.2).2⟩
    · simp only [dictErase, if_neg hk, dictLookup, if_neg hk]
      exact ih h.2

theorem dictLookup_isSome_of_mem {α : Type} (d : Dict α) (k : String) (v : α)
    (h : (k, v) ∈ d) : (dictLookup d k).isSome = true := by
  induction d with
  | nil => simp at h
  | cons p rest ih =>
    obtain ⟨k', v'⟩ := p
    rcases List.mem_cons.mp h with h1 | h1
    · have : k' = k := by cases h1; rfl
      simp [dictLookup, this]
    · by_cases hk : k' = k
      · simp [dictLookup, hk]
      · simp only [dictLookup, if_neg hk]
        exact ih h1

/-! ## Session-lookup lemmas -/

theorem find_session_state_eq (d : Dict AuthSession) (ss : String) (s : AuthSession)
    (h : find_session_by_state d ss = some s) : s.state = ss := by
  induction d with
  | nil => simp [find_session_by_state] at h
  | cons p rest ih =>
    obtain ⟨k, v⟩ := p
    by_cases hv : v.state == ss
    · simp only [find_session_by_state, if_pos hv, Option.some.injEq] at h
      subst h
      exact eq_of_beq hv
    · simp only [find_session_by_state, if_neg hv] at h
      exact ih h

theorem find_session_mem (d : Dict AuthSession) (ss : String) (s : AuthSession)
    (h : find_session_by_state d ss = some s) : ∃ k, (k, s) ∈ d := by
  induction d with
  | nil => simp [find_session_by_state] at h
  | cons p rest ih =>
    obtain ⟨k, v⟩ := p
    by_cases hv : v.state == ss
    · simp only [find_session_by_state, if_pos hv, Option.some.injEq] at h
      subst h
      exact ⟨k, List.mem_cons_self _ _⟩
    · simp only [find_session_by_state, if_neg hv] at h
      obtain ⟨k0, hk0⟩ := ih h
      exact ⟨k0, List.mem_cons_of_mem _ hk0⟩

theorem find_session_none_of_countP_zero (d : Dict AuthSession) (ss : String)
    (h : d.countP (fun p => p.2.state == ss) = 0) :
    find_session_by_state d ss = none := by
  induction d with
  | nil => rfl
  | cons p rest ih =>
    obtain ⟨k, v⟩ := p
    rw [List.countP_cons] at h
    by_cases hv : v.state == ss
    · simp [hv] at h
    · simp only [find_session_by_state, if_neg hv]
      exact ih (by omega)

theorem find_session_erase_none (d : Dict AuthSession) (ss : String) (s : AuthSession)
    (hwf : sessionsWF d = true) (hnd : (dictKeys d).Nodup)
    (hone : d.countP (fun p => p.2.state == ss) ≤ 1)
    (hfind : find_session_by_state d ss = some s) :
    find_session_by_state (dictErase d s.session_id) ss = none := by
  induction d with
  | nil => simp [find_session_by_state] at hfind
  | cons p rest ih =>
    obtain ⟨k, v⟩ := p
    have hwfv : v.session_id = k := by
      have := (List.all_eq_true.mp hwf) (k, v) (List.mem_cons_self _ _)
      exact eq_of_beq this
    have hwfrest : sessionsWF rest = true := by
      apply List.all_eq_true.mpr
      intro q hq
      exact (List.all_eq_true.mp hwf) q (List.mem_cons_of_mem _ hq)
    simp only [dictKeys, List.map_cons, List.nodup_cons] at hnd
    rw [List.countP_cons] at hone
    by_cases hv : v.state == ss
    · simp only [find_session_by_state, if_pos hv, Option.some.injEq] at hfind
      subst hfind
      have herase : dictErase ((k, v) :: rest) v.session_id = rest := by
        simp [dictErase, hwfv]
      rw [herase]
      apply find_session_none_of_countP_zero
      have hcnt : (if (fun p => ((p : String × AuthSession).2.state == ss)) (k, v)
          then 1 else 0) = 1 := by
        simp [hv]
      rw [hcnt] at hone
      omega
    · simp only [find_session_by_state, if_neg hv] at hfind
      obtain ⟨k0, hk0⟩ := find_session_mem rest ss s hfind
      have hsid : s.session_id = k0 :=
        eq_of_beq ((List.all_eq_true.mp hwfrest) (k0, s) hk0)
      have hk0mem : k0 ∈ dictKeys rest := by
        simp only [dictKeys, List.mem_map]
        exact ⟨(k0, s), hk0, rfl⟩
      have hne : k ≠ s.session_id := by
        rw [hsid]
        intro hcontra
        exact hnd.1 (hcontra ▸ hk0mem)
      simp only [dictErase, if_neg hne, find_session_by_state, if_neg hv]
      exact ih hwfrest hnd.2 (by simpa [hv] using hone) hfind

theorem find_session_insert_fresh (d : Dict AuthSession) (k : String) (s : AuthSession)
    (ss : String) (hk : dictLookup d k = none)
    (hss : find_session_by_state d ss = none) (hs : s.state = ss) :
    find_session_by_state (dictInsert d k s) ss = some s := by
  induction d with
  | nil => simp [dictInsert, find_session_by_state, hs]
  | cons p rest ih =>
    obtain ⟨k', v'⟩ := p
    have hk' : k' ≠ k := by
      intro hcontra
      simp [dictLookup, hcontra] at hk
    simp only [dictLookup, if_neg hk'] at hk
    by_cases hv : v'.state == ss
    · simp [find_session_by_state, hv] at hss
    · simp only [find_session_by_state, if_neg hv] at hss
      simp only [dictInsert, if_neg hk', find_session_by_state, if_neg hv]
      exact ih hk hss

/-! ## Poll-loop lemmas -/

theorem poll_loop_attempts_le (events : Nat → PollEvent) (attempt remaining : Nat) :
    (poll_loop events attempt remaining).1 ≤ attempt + remaining := by
  induction remaining generalizing attempt with
  | zero => simp [poll_loop]
  | succ r ih =>
    unfold poll_loop
    cases events (attempt + 1) with
    | cleared =>
      show attempt ≤ attempt + (r + 1)
      omega
    | okSuccess u =>
      show attempt + 1 ≤ attempt + (r + 1)
      omega
    | okNotFound =>
      show attempt + 1 ≤ attempt + (r + 1)
      omega
    | okPending =>
      show (poll_loop events (attempt + 1) r).1 ≤ attempt + (r + 1)
      have := ih (attempt + 1)
      omega
    | badStatus c =>
      show (poll_loop events (attempt + 1) r).1 ≤ attempt + (r + 1)
      have := ih (attempt + 1)
      omega
    | exnDuringPoll m =>
      show (poll_loop events (attempt + 1) r).1 ≤ attempt + (r + 1)
      have := ih (attempt + 1)
      omega

theorem poll_loop_timeout (events : Nat → PollEvent) (attempt remaining : Nat)
    (h : ∀ n, n ≤ attempt + remaining → attempt < n →
      nonTerminalEvent (events n) = true) :
    poll_loop events attempt remaining = (attempt + remaining, PollExit.timeout) := by
  induction remaining generalizing attempt with
  | zero => simp [poll_loop]
  | succ r ih =>
    have h1 : nonTerminalEvent (events (attempt + 1)) = true := by
      apply h <;> omega
    have hrec : ∀ n, n ≤ attempt + 1 + r → attempt + 1 < n →
        nonTerminalEvent (events n) = true :=
      fun n hn1 hn2 => h n (by omega) (by omega)
    have hts : attempt + 1 + r = attempt + (r + 1) := by omega
    unfold poll_loop
    cases hev : events (attempt + 1) with
    | cleared => rw [hev] at h1; simp [nonTerminalEvent] at h1
    | okSuccess u => rw [hev] at h1; simp [nonTerminalEvent] at h1
    | okNotFound => rw [hev] at h1; simp [nonTerminalEvent] at h1
    | okPending =>
      show poll_loop events (attempt + 1) r = (attempt + (r + 1), PollExit.timeout)
      rw [ih (attempt + 1) hrec, hts]
    | badStatus c =>
      show poll_loop events (attempt + 1) r = (attempt + (r + 1), PollExit.timeout)
      rw [ih (attempt + 1) hrec, hts]
    | exnDuringPoll m =>
      show poll_loop events (attempt + 1) r = (attempt + (r + 1), PollExit.timeout)
      rw [ih (attempt + 1) hrec, hts]

theorem poll_loop_stops (events : Nat → PollEvent) (attempt remaining k : Nat)
    (hk1 : attempt < k) (hk2 : k ≤ attempt + remaining)
    (hpre : ∀ n, n < k → attempt < n → nonTerminalEvent (events n) = true)
    (hterm : nonTerminalEvent (events k) = false) :
    (poll_loop events attempt remaining).2
        = (eventExit (events k)).getD PollExit.timeout ∧
      (poll_loop events attempt remaining).1 ≤ k := by
  induction remaining generalizing attempt with
  | zero => omega
  | succ r ih =>
    by_cases hek : k = attempt + 1
    · subst hek
      unfold poll_loop
      cases hev : events (attempt + 1) with
      | cleared => simp [eventExit, hev]
      | okSuccess u => simp [eventExit, hev]
      | okNotFound => simp [eventExit, hev]
      | okPending => rw [hev] at hterm; simp [nonTerminalEvent] at hterm
      | badStatus c => rw [hev] at hterm; simp [nonTerminalEvent] at hterm
      | exnDuringPoll m => rw [hev] at hterm; simp [nonTerminalEvent] at hterm
    · have h1 : nonTerminalEvent (events (attempt + 1)) = true := by
        apply hpre <;> omega
      have hrec := fun hr1 hr2 => ih (attempt + 1) hr1 hr2
        (fun n hn1 hn2 => hpre n hn1 (by omega))
      unfold poll_loop
      cases hev : events (attempt + 1) with
      | cleared => rw [hev] at h1; simp [nonTerminalEvent] at h1
      | okSuccess u => rw [hev] at h1; simp [nonTerminalEvent] at h1
      | okNotFound => rw [hev] at h1; simp [nonTerminalEvent] at h1
      | okPending =>
        show (poll_loop events (attempt + 1) r).2
            = (eventExit (events k)).getD PollExit.timeout ∧
          (poll_loop events (attempt + 1) r).1 ≤ k
        exact hrec (by omega) (by omega)
      | badStatus c =>
        show (poll_loop events (attempt + 1) r).2
            = (eventExit (events k)).getD PollExit.timeout ∧
          (poll_loop events (attempt + 1) r).1 ≤ k
        exact hrec (by omega) (by omega)
      | exnDuringPoll m =>
        show (poll_loop events (attempt + 1) r).2
            = (eventExit (events k)).getD PollExit.timeout ∧
          (poll_loop events (attempt + 1) r).1 ≤ k
        exact hrec (by omega) (by omega)

/-! ## Claim theorems -/

/-- Claim C4 (confirmed): for every token `t`, `validate_state t t` is true,
and for distinct tokens it is false; `validate_state` is a pure function of
its two arguments (no side effects in the model). -/
theorem C4_validate_state_correct (t t1 t2 : String) (h : t1 ≠ t2) :
    validate_state t t = true ∧ validate_state t1 t2 = false := by
  constructor
  · simp [validate_state]
  · simp only [validate_state]
    exact beq_eq_false_iff_ne.mpr h

/-- Witness for C4 at concrete tokens. -/
theorem C4_validate_state_correct_witness :
    validate_state "tok" "tok" = true ∧ validate_state "tok-a" "tok-b" = false :=
  C4_validate_state_correct "tok" "tok-a" "tok-b" (by decide)

/-- Claim C5 (confirmed): the authorization URL is the provider endpoint with
exactly the query parameters client_id, redirect_uri, scope = the
space-joined minimal scope set, response_type = code, the fresh state,
access_type = offline and prompt = consent; a falsy client id makes service
construction fail (the source raises `ValueError`, the spec's
`ConfigurationError`). -/
theorem C5_generate_auth_url_params (cid ruri st : String) (cfg : Option String)
    (habsent : pyTruthy cfg = false) :
    generate_auth_url cid ruri st =
      (GOOGLE_AUTH_URL ++ "?" ++ urlencode
        [("client_id", cid), ("redirect_uri", ruri),
         ("scope", "openid profile email"), ("response_type", "code"),
         ("state", st), ("access_type", "offline"), ("prompt", "consent")], st) ∧
    GoogleOAuthService.init cfg =
      Except.error "Google OAuth client ID not configured" := by
  constructor
  · rfl
  · simp [GoogleOAuthService.init, habsent]

/-- Witness for C5 at a concrete configuration. -/
theorem C5_generate_auth_url_params_witness :
    generate_auth_url "client-1" "http://localhost:8000/cb" "tok" =
      (GOOGLE_AUTH_URL ++ "?" ++ urlencode
        [("client_id", "client-1"), ("redirect_uri", "http://localhost:8000/cb"),
         ("scope", "openid profile email"), ("response_type", "code"),
         ("state", "tok"), ("access_type", "offline"), ("prompt", "consent")], "tok") ∧
    GoogleOAuthService.init none =
      Except.error "Google OAuth client ID not configured" :=
  C5_generate_auth_url_params "client-1" "http://localhost:8000/cb" "tok" none rfl

/-- Claim C6 (confirmed): creating a session with a fresh id and a fresh state
and immediately looking the state up returns that very session: its stored
state, auth_url and session_id (equal to the returned id) all match. -/
theorem C6_create_session_findable (srv : AuthServerState) (sid url ss : String)
    (ts : Nat) (hid : dictLookup srv.auth_sessions sid = none)
    (hfresh : find_session_by_state srv.auth_sessions ss = none) :
    (create_auth_session srv sid url ss ts).2 = sid ∧
    find_session_by_state (create_auth_session srv sid url ss ts).1.auth_sessions ss =
      some { session_id := sid, auth_url := url, state := ss, timestamp := ts } := by
  refine ⟨rfl, ?_⟩
  exact find_session_insert_fresh _ _ _ _ hid hfresh rfl

/-- Witness for C6 on a concrete server. -/
theorem C6_create_session_findable_witness :
    (create_auth_session cexServer "sid-2" "http://u" "state-2" 1).2 = "sid-2" ∧
    find_session_by_state
        (create_auth_session cexServer "sid-2" "http://u" "state-2" 1).1.auth_sessions
        "state-2" =
      some { session_id := "sid-2", auth_url := "http://u", state := "state-2",
             timestamp := 1 } :=
  C6_create_session_findable cexServer "sid-2" "http://u" "state-2" 1
    (by decide) (by decide)

/-- Claim C7 (confirmed): a callback with missing code or state (and no error
parameter) yields exactly the 400 missing-parameters response and leaves the
whole server state — both tables — unchanged. -/
theorem C7_missing_params_no_frame (srv : AuthServerState) (code state : Option String)
    (exch : ExchangeOutcome) (prov : ProvisionOutcome) (ts : Nat)
    (h : pyTruthy code = false ∨ pyTruthy state = false) :
    google_callback srv code state none exch prov ts =
      (⟨400, Page.error "Missing authorization code or state"⟩, srv) := by
  have hnone : pyTruthy none = false := rfl
  rcases h with h | h <;> simp [google_callback, hnone, h]

/-- Witness for C7 on a concrete request with no code. -/
theorem C7_missing_params_no_frame_witness :
    google_callback cexServer none (some "state-1") none ExchangeOutcome.ok
        (ProvisionOutcome.ok wUser true) 0 =
      (⟨400, Page.error "Missing authorization code or state"⟩, cexServer) :=
  C7_missing_params_no_frame cexServer none (some "state-1") ExchangeOutcome.ok
    (ProvisionOutcome.ok wUser true) 0 (Or.inl rfl)

/-- Claim C9 (confirmed): a profile with a falsy email or no truthy external
id (neither `id` nor `sub`) makes `get_or_create_user_from_oauth` raise a
`ValueError` before any repository call: the outcome is an error for every
repository oracle and the repository-call trace is empty. -/
theorem C9_invalid_profile_rejected (repo : UserRepo) (d : OAuthData)
    (provider : String)
    (h : pyTruthy d.email = false ∨ pyTruthy (pyOr d.id d.sub) = false) :
    (get_or_create_user_from_oauth repo d provider).2 = [] ∧
    (get_or_create_user_from_oauth repo d provider).1 =
      Except.error (if pyTruthy d.email = false
        then "OAuth data must include email address"
        else "OAuth data must include user ID") := by
  by_cases he : pyTruthy d.email = false
  · simp [get_or_create_user_from_oauth, he]
  · have he' : pyTruthy d.email = true := by
      cases hx : pyTruthy d.email
      · exact absurd hx he
      · rfl
    have hid : pyTruthy (pyOr d.id d.sub) = false := by
      rcases h with h | h
      · exact absurd h he
      · exact h
    simp [get_or_create_user_from_oauth, he', hid, he]

/-- Witness for C9 on a profile with no email. -/
theorem C9_invalid_profile_rejected_witness :
    (get_or_create_user_from_oauth wRepo
        { email := none, id := some "123", sub := none } "google").2 = [] ∧
    (get_or_create_user_from_oauth wRepo
        { email := none, id := some "123", sub := none } "google").1 =
      Except.error (if pyTruthy (none : Option String) = false
        then "OAuth data must include email address"
        else "OAuth data must include user ID") :=
  C9_invalid_profile_rejected wRepo
    { email := none, id := some "123", sub := none } "google" (Or.inl rfl)

/-- Claim C2 (confirmed): `auth_status` returns and removes a completed
result when one exists, reports pending when only a session exists, reports
not_found when neither exists; and after `complete_session` the first
`auth_status` call returns the stored result while every later call returns
not_found (at-most-once delivery). The Nodup hypotheses state that the two
tables are genuine dicts (no duplicate keys), which Python guarantees. -/
theorem C2_take_result_contract (srv : AuthServerState) (sid : String) (r : AuthResult)
    (hres : (dictKeys srv.auth_results).Nodup)
    (hses : (dictKeys srv.auth_sessions).Nodup) :
    (∀ r0, dictLookup srv.auth_results sid = some r0 →
      auth_status srv sid =
        (StatusResponse.result r0,
         { srv with auth_results := dictErase srv.auth_results sid })) ∧
    (dictLookup srv.auth_results sid = none →
      (dictLookup srv.auth_sessions sid).isSome = true →
      auth_status srv sid = (StatusResponse.pending, srv)) ∧
    (dictLookup srv.auth_results sid = none →
      (dictLookup srv.auth_sessions sid).isSome = false →
      auth_status srv sid = (StatusResponse.notFound, srv)) ∧
    ((auth_status (complete_session srv sid r) sid).1 = StatusResponse.result r ∧
     (auth_status ((auth_status (complete_session srv sid r) sid).2) sid).1 =
       StatusResponse.notFound) := by
  refine ⟨?_, ?_, ?_, ?_⟩
  · intro r0 h
    simp [auth_status, h]
  · intro h1 h2
    simp [auth_status, h1, h2]
  · intro h1 h2
    simp [auth_status, h1, h2]
  · have hresults : (complete_session srv sid r).auth_results =
        dictInsert srv.auth_results sid r := by
      by_cases hs : (dictLookup srv.auth_sessions sid).isSome = true <;>
        simp [complete_session, hs]
    have hlook : dictLookup (complete_session srv sid r).auth_results sid = some r := by
      rw [hresults]
      exact dictLookup_insert_self _ _ _
    have hfirst : auth_status (complete_session srv sid r) sid =
        (StatusResponse.result r,
         { complete_session srv sid r with
            auth_results :=
              dictErase (complete_session srv sid r).auth_results sid }) := by
      simp [auth_status, hlook]
    refine ⟨by rw [hfirst], ?_⟩
    rw [hfirst]
    have hres2 : dictLookup
        (dictErase (complete_session srv sid r).auth_results sid) sid = none := by
      apply dictLookup_erase_self
      rw [hresults]
      exact dictKeys_insert_nodup _ _ _ hres
    have hses2 : (dictLookup (complete_session srv sid r).auth_sessions sid).isSome
        = false := by
      by_cases hs : (dictLookup srv.auth_sessions sid).isSome = true
      · have hsess : (complete_session srv sid r).auth_sessions =
            dictErase srv.auth_sessions sid := by
          simp [complete_session, hs]
        rw [hsess, dictLookup_erase_self _ _ hses]
        rfl
      · have hsess : (complete_session srv sid r).auth_sessions =
            srv.auth_sessions := by
          simp [complete_session, hs]
        rw [hsess]
        simpa using hs
    simp [auth_status, hres2, hses2]

/-- Witness for C2 on a concrete server: complete, take once, take again. -/
theorem C2_take_result_contract_witness :
    (auth_status (complete_session cexServer "sid-1" wResult) "sid-1").1 =
      StatusResponse.result wResult ∧
    (auth_status
        ((auth_status (complete_session cexServer "sid-1" wResult) "sid-1").2)
        "sid-1").1 = StatusResponse.notFound :=
  (C2_take_result_contract cexServer "sid-1" wResult (by decide) (by decide)).2.2.2

/-- Claim C1, counterexample to the claim as stated: a concrete callback with
a valid state and a failing token exchange returns HTTP 500, yet the result
table stays empty and the status endpoint still reports pending — no failed
AuthResult with success false ever becomes retrievable, so the poller can
only time out. -/
theorem C1_counterexample_no_failed_result :
    (google_callback cexServer (some "code-1") (some "state-1") none
      (ExchangeOutcome.httpStatusError "401 Unauthorized")
      (ProvisionOutcome.ok wUser true) 0).1.status_code = 500 ∧
    (google_callback cexServer (some "code-1") (some "state-1") none
      (ExchangeOutcome.httpStatusError "401 Unauthorized")
      (ProvisionOutcome.ok wUser true) 0).2.auth_results = [] ∧
    (auth_status (google_callback cexServer (some "code-1") (some "state-1") none
      (ExchangeOutcome.httpStatusError "401 Unauthorized")
      (ProvisionOutcome.ok wUser true) 0).2 "sid-1").1 = StatusResponse.pending := by
  refine ⟨rfl, rfl, rfl⟩

/-- Claim C1 (corrected): on a token-exchange failure with a valid state the
handler returns HTTP 500, but — contrary to the claim — it stores no failed
AuthResult and leaves the whole server state unchanged, so the session's
status endpoint keeps answering pending and the poller observes only its own
timeout. -/
theorem C1_exchange_failure_leaves_session_pending (srv : AuthServerState)
    (code ss msg : String) (sess : AuthSession) (exch : ExchangeOutcome)
    (prov : ProvisionOutcome) (ts : Nat)
    (hcode : code ≠ "") (hss : ss ≠ "")
    (hfound : find_session_by_state srv.auth_sessions ss = some sess)
    (hfail : exch = ExchangeOutcome.httpStatusError msg ∨
      exch = ExchangeOutcome.noAccessToken) :
    (google_callback srv (some code) (some ss) none exch prov ts).1.status_code
      = 500 ∧
    (google_callback srv (some code) (some ss) none exch prov ts).2 = srv ∧
    (dictLookup srv.auth_results sess.session_id = none →
      (dictLookup srv.auth_sessions sess.session_id).isSome = true →
      (auth_status (google_callback srv (some code) (some ss) none exch prov ts).2
          sess.session_id).1 = StatusResponse.pending) := by
  have hstate : sess.state = ss := find_session_state_eq _ _ _ hfound
  have hnone : pyTruthy none = false := rfl
  have h2 : (google_callback srv (some code) (some ss) none exch prov ts).2
      = srv := by
    rcases hfail with hfail | hfail <;> subst hfail <;>
      simp [google_callback, hnone, pyTruthy, hcode, hss, hfound,
        validate_state, hstate]
  refine ⟨?_, h2, ?_⟩
  · rcases hfail with hfail | hfail <;> subst hfail <;>
      simp [google_callback, hnone, pyTruthy, hcode, hss, hfound,
        validate_state, hstate]
  · intro hr hs
    rw [h2]
    simp [auth_status, hr, hs]

/-- Witness for the corrected C1 on a concrete server. -/
theorem C1_exchange_failure_leaves_session_pending_witness :
    (google_callback cexServer (some "code-1") (some "state-1") none
        ExchangeOutcome.noAccessToken (ProvisionOutcome.ok wUser true) 0).1.status_code
      = 500 ∧
    (google_callback cexServer (some "code-1") (some "state-1") none
        ExchangeOutcome.noAccessToken (ProvisionOutcome.ok wUser true) 0).2
      = cexServer ∧
    (dictLookup cexServer.auth_results cexSession.session_id = none →
      (dictLookup cexServer.auth_sessions cexSession.session_id).isSome = true →
      (auth_status (google_callback cexServer (some "code-1") (some "state-1") none
          ExchangeOutcome.noAccessToken (ProvisionOutcome.ok wUser true) 0).2
          cexSession.session_id).1 = StatusResponse.pending) :=
  C1_exchange_failure_leaves_session_pending cexServer "code-1" "state-1" ""
    cexSession ExchangeOutcome.noAccessToken (ProvisionOutcome.ok wUser true) 0
    (by decide) (by decide) (by decide) (Or.inr rfl)

/-- Claim C3 (confirmed): when a callback for `(code, state)` succeeds, the
matching session is removed, so replaying the same pair finds no session by
state and is rejected with the 400 invalid-or-expired response, leaving the
state unchanged. Hypotheses: the session table is well formed (keys are the
stored session ids, no duplicates) and at most one session holds this state
token, as guaranteed by `create_auth_session` and token freshness. -/
theorem C3_replay_second_callback_rejected (srv : AuthServerState) (code ss : String)
    (u : UserRecord) (isNew : Bool) (ts ts2 : Nat)
    (exch2 : ExchangeOutcome) (prov2 : ProvisionOutcome)
    (hwf : sessionsWF srv.auth_sessions = true)
    (hnd : (dictKeys srv.auth_sessions).Nodup)
    (hone : srv.auth_sessions.countP (fun p => p.2.state == ss) ≤ 1)
    (hcode : code ≠ "") (hss : ss ≠ "")
    (hfound : (find_session_by_state srv.auth_sessions ss).isSome = true) :
    (google_callback srv (some code) (some ss) none ExchangeOutcome.ok
        (ProvisionOutcome.ok u isNew) ts).1.status_code = 200 ∧
    google_callback
        (google_callback srv (some code) (some ss) none ExchangeOutcome.ok
          (ProvisionOutcome.ok u isNew) ts).2
        (some code) (some ss) none exch2 prov2 ts2 =
      (⟨400, Page.error "Invalid or expired authentication session"⟩,
       (google_callback srv (some code) (some ss) none ExchangeOutcome.ok
          (ProvisionOutcome.ok u isNew) ts).2) := by
  obtain ⟨sess, hsess⟩ := Option.isSome_iff_exists.mp hfound
  have hstate : sess.state = ss := find_session_state_eq _ _ _ hsess
  have hnone : pyTruthy none = false := rfl
  have hfirst : google_callback srv (some code) (some ss) none ExchangeOutcome.ok
      (ProvisionOutcome.ok u isNew) ts =
      (⟨200, Page.success (mkUserInfo u isNew).name⟩,
       complete_session srv sess.session_id
         { success := true, user_info := mkUserInfo u isNew, timestamp := ts }) := by
    simp [google_callback, hnone, pyTruthy, hcode, hss, hsess,
      validate_state, hstate]
  obtain ⟨k0, hk0⟩ := find_session_mem _ _ _ hsess
  have hsid : sess.session_id = k0 :=
    eq_of_beq ((List.all_eq_true.mp hwf) (k0, sess) hk0)
  have hlook : (dictLookup srv.auth_sessions sess.session_id).isSome = true := by
    rw [hsid]
    exact dictLookup_isSome_of_mem _ _ _ hk0
  have hsessions : (complete_session srv sess.session_id
      { success := true, user_info := mkUserInfo u isNew, timestamp := ts
        : AuthResult }).auth_sessions
      = dictErase srv.auth_sessions sess.session_id := by
    simp [complete_session, hlook]
  have herased : find_session_by_state (dictErase srv.auth_sessions sess.session_id)
      ss = none :=
    find_session_erase_none _ _ _ hwf hnd hone hsess
  constructor
  · rw [hfirst]
  · rw [hfirst]
    simp [google_callback, hnone, pyTruthy, hcode, hss, hsessions, herased]

/-- Witness for C3 on a concrete server holding one session. -/
theorem C3_replay_second_callback_rejected_witness :
    (google_callback cexServer (some "code-1") (some "state-1") none
        ExchangeOutcome.ok (ProvisionOutcome.ok wUser true) 0).1.status_code = 200 ∧
    google_callback
        (google_callback cexServer (some "code-1") (some "state-1") none
          ExchangeOutcome.ok (ProvisionOutcome.ok wUser true) 0).2
        (some "code-1") (some "state-1") none ExchangeOutcome.ok
        (ProvisionOutcome.ok wUser true) 1 =
      (⟨400, Page.error "Invalid or expired authentication session"⟩,
       (google_callback cexServer (some "code-1") (some "state-1") none
          ExchangeOutcome.ok (ProvisionOutcome.ok wUser true) 0).2) :=
  C3_replay_second_callback_rejected cexServer "code-1" "state-1" wUser true 0 1
    ExchangeOutcome.ok (ProvisionOutcome.ok wUser true)
    (by decide) (by decide) (by decide) (by decide) (by decide) (by decide)

/-- Claim C8 (confirmed): the poll loop caps at `max_attempts = 60` attempts
spaced `poll_interval_seconds = 5` seconds apart; it never performs more than
60 attempts; if every attempt in the window is non-terminal it exits after
exactly 60 attempts with the timeout error; and it stops at the first
terminal observation (success result, not_found, or a cleared session id)
with the corresponding exit. -/
theorem C8_poller_cap_and_termination (events : Nat → PollEvent) (k : Nat) :
    max_attempts = 60 ∧ poll_interval_seconds = 5 ∧
    (poll_auth_status events).1 ≤ 60 ∧
    ((∀ n, n ≤ 60 → 1 ≤ n → nonTerminalEvent (events n) = true) →
      poll_auth_status events = (60, PollExit.timeout)) ∧
    (1 ≤ k → k ≤ 60 →
      (∀ n, n < k → 1 ≤ n → nonTerminalEvent (events n) = true) →
      nonTerminalEvent (events k) = false →
      (poll_auth_status events).2 = (eventExit (events k)).getD PollExit.timeout ∧
      (poll_auth_status events).1 ≤ k) := by
  refine ⟨rfl, rfl, ?_, ?_, ?_⟩
  · have h := poll_loop_attempts_le events 0 max_attempts
    simpa [poll_auth_status, max_attempts] using h
  · intro h
    have ht := poll_loop_timeout events 0 60
      (fun n hn1 hn2 => h n (by omega) (by omega))
    simpa [poll_auth_status, max_attempts] using ht
  · intro hk1 hk2 hpre hterm
    have hs := poll_loop_stops events 0 60 k (by omega) (by omega)
      (fun n hn1 hn2 => hpre n hn1 (by omega)) hterm
    simpa [poll_auth_status, max_attempts] using hs

/-- Witness for C8: a trace that stays pending once and then succeeds stops
at attempt two with the success exit. -/
theorem C8_poller_cap_and_termination_witness :
    (poll_auth_status wEvents).2 = (eventExit (wEvents 2)).getD PollExit.timeout ∧
    (poll_auth_status wEvents).1 ≤ 2 :=
  (C8_poller_cap_and_termination wEvents 2).2.2.2.2
    (by decide) (by decide) (by decide) (by decide)

/-- Claim C10 (confirmed): because the session is located by exact equality
of the received state with a stored state, the subsequent defense-in-depth
`validate_state` check always passes; the CSRF branch is unreachable and no
input can make the callback respond with status 403. -/
theorem C10_callback_never_403 (srv : AuthServerState)
    (code state error : Option String) (exch : ExchangeOutcome)
    (prov : ProvisionOutcome) (ts : Nat) :
    ((google_callback srv code state error exch prov ts).1.status_code == 403)
      = false := by
  unfold google_callback
  split
  · rfl
  · split
    · rfl
    · cases hfind : find_session_by_state srv.auth_sessions (state.getD "") with
      | none => simp [hfind]
      | some sess =>
        have hstate : sess.state = state.getD "" :=
          find_session_state_eq _ _ _ hfind
        have hval : (!(validate_state (state.getD "") sess.state)) = false := by
          simp [validate_state, hstate]
        simp only [hfind]
        rw [hval]
        simp only [Bool.false_eq_true, if_false]
        cases exch <;> cases prov <;> rfl
